import Mathlib

/-!
Verification development for the MotionBlinds BLE device driver
(`motionblinds_ble/device.py`): a shallow embedding of the data model,
the notification decoder, the connection coordinator, the disconnect
timer, the command-send retry loop and the composed `percentage`
command, together with theorems settling the specified properties.
-/

/-- A Python value as far as truthiness is concerned: the source mixes
genuine booleans with ints (the `FAVORITE` field of `MotionPositionInfo`
is `bool or int` because Python `or` returns its second operand). -/
inductive PyVal where
  | bool (b : Bool)
  | int (n : Nat)
deriving DecidableEq

/-- Python truthiness: a bool is itself, an int is truthy iff non-zero. -/
def PyVal.truthy : PyVal → Bool
  | .bool b => b
  | .int n => n != 0

/-- Python `or`: returns the first operand when it is truthy, otherwise
the second operand (which need not be a bool). -/
def pyOr (a b : PyVal) : PyVal :=
  if a.truthy then a else b

/-- Exceptions raised by the device code (`NoEndPositionsException`,
`NoFavoritePositionException`, Python `AssertionError`, and the
transport-level `BleakError` family). -/
inductive PyError where
  | noEndPositions
  | noFavoritePosition
  | assertionError
  | bleakError
  | bleakNotFound
  | bleakOutOfSlots
deriving DecidableEq

/-- Enum `MotionConnectionType` (from `const.py`, values per the spec's
ConnectionState enum {Disconnected, Connecting, Connected, Disconnecting}). -/
inductive MotionConnectionType where
  | DISCONNECTED
  | CONNECTING
  | CONNECTED
  | DISCONNECTING
deriving DecidableEq

/-- Structure `MotionPositionInfo`: `UP`, `DOWN` are bools; `FAVORITE` is the
result of a Python `or` between a bool and an int (see `make`). -/
structure MotionPositionInfo where
  UP : Bool
  DOWN : Bool
  FAVORITE : PyVal
deriving DecidableEq

/-- Constructor `MotionPositionInfo.__init__`:
`UP = bool(end_positions_byte & 0x08)`, `DOWN = bool(end_positions_byte & 0x04)`,
`FAVORITE = (favorite_bytes & 0xFF00) != 0x00 or (favorite_bytes & 0x00FF)`. -/
def MotionPositionInfo.make (end_positions_byte favorite_bytes : Nat) :
    MotionPositionInfo :=
  { UP := (end_positions_byte &&& 0x08) != 0
    DOWN := (end_positions_byte &&& 0x04) != 0
    FAVORITE :=
      pyOr (.bool ((favorite_bytes &&& 0xFF00) != 0x00))
        (.int (favorite_bytes &&& 0x00FF)) }

/-- Guard condition of the `requires_end_positions` decorator: raise iff
`end_position_info is not None and not end_position_info.UP and not
ignore_end_positions_not_set`. -/
def end_positions_guard_raises (info : Option MotionPositionInfo)
    (ignore_end_positions_not_set : Bool) : Bool :=
  match info with
  | some i => !i.UP && !ignore_end_positions_not_set
  | none => false

/-- The `requires_end_positions` wrapper: raise `NoEndPositionsException`
when the guard fires, otherwise run the wrapped coroutine. -/
def requires_end_positions_wrap {α : Type} (info : Option MotionPositionInfo)
    (ignore_end_positions_not_set : Bool) (body : α) : Except PyError α :=
  if end_positions_guard_raises info ignore_end_positions_not_set then
    .error .noEndPositions
  else .ok body

/-- Python built-in `round` on an exact rational: round half to even.
The source computes `round(100 * angle / 180)` in IEEE doubles; for the
byte range 0..180 the quotient `5*a/9` is never a half-integer and lies
more than 1/18 away from one, far beyond the double rounding error, so
the exact-rational model coincides with the float computation. -/
def pythonRound (x : ℚ) : ℤ :=
  let f := ⌊x⌋
  let frac := x - f
  if frac < 1/2 then f
  else if 1/2 < frac then f + 1
  else if f % 2 = 0 then f else f + 1

/-- The quantity `angle_percentage = round(100 * angle / 180)` from `_notification_callback`. -/
def angle_percentage (angle : Nat) : ℤ :=
  pythonRound ((100 * angle : ℚ) / 180)

/-- Modelled from the spec: the notification type markers come from
`MotionNotificationType` in `const.py`, which is not part of the reviewed
source; the spec says the decoder dispatches on "a type marker in the
frame header" with three recognized categories. An unrecognized header is
represented by `none` at the call site. -/
inductive MotionNotificationType where
  | PERCENT
  | RUNNING
  | STATUS
deriving DecidableEq

/-- The decoder-relevant state of a `MotionDevice`: the cached
`end_position_info` and which of the notification callbacks are
registered (`None` callbacks suppress the corresponding branch). -/
structure NotificationState where
  end_position_info : Option MotionPositionInfo
  position_callback : Bool
  running_callback : Bool
  status_callback : Bool
deriving DecidableEq

/-- Events emitted by `_notification_callback` through the registered
callbacks. The running branch computes a direction boolean but its
callback invocation is commented out in the source, so it emits nothing. -/
inductive MotionEvent where
  | position (position_percentage : Nat) (angle_percentage : ℤ)
      (info : MotionPositionInfo)
  | status (position_percentage : Nat) (angle_percentage : ℤ)
      (battery_percentage : Nat) (speed_level : Option Nat)
      (info : MotionPositionInfo)
deriving DecidableEq

/-- Method `_notification_callback` on a decrypted message: `marker` is the result
of the `startswith` dispatch (`none` = unrecognized type), `b` the decrypted
message bytes. `isValidSpeed` abstracts membership in the `MotionSpeedLevel`
enum of `const.py` (a `ValueError` maps the speed to `None`). Byte reads
model `decrypted_message_bytes[i]`, and `int.from_bytes([b6, b7])` is the
big-endian value `b6 * 256 + b7`. -/
def notification_callback (isValidSpeed : Nat → Bool) (s : NotificationState)
    (marker : Option MotionNotificationType) (b : List Nat) :
    NotificationState × Option MotionEvent :=
  if marker = some MotionNotificationType.PERCENT ∧ s.position_callback = true then
    let info := MotionPositionInfo.make (b.getD 4 0)
      ((b.getD 6 0) * 256 + (b.getD 7 0))
    ({ s with end_position_info := some info },
      some (.position (b.getD 6 0) (angle_percentage (b.getD 7 0)) info))
  else if marker = some MotionNotificationType.RUNNING ∧ s.running_callback = true then
    -- `self._running_callback(running_type)` is commented out: no event.
    (s, none)
  else if marker = some MotionNotificationType.STATUS ∧ s.status_callback = true then
    let info := MotionPositionInfo.make (b.getD 4 0)
      ((b.getD 6 0) * 256 + (b.getD 7 0))
    let speed := if isValidSpeed (b.getD 12 0) then some (b.getD 12 0) else none
    ({ s with end_position_info := some info },
      some (.status (b.getD 6 0) (angle_percentage (b.getD 7 0)) (b.getD 17 0)
        speed info))
  else (s, none)

/-- Connection-lifecycle state of a `MotionDevice`.
`connection_task` records whether a connection `Task` is in flight
(`self._connection_task is not None`); `attempts_started` counts how many
physical connection tasks have been created (for the coalescing property);
`current_bleak_client` records `self._current_bleak_client is not None`;
`disconnect_timer` is `none` when no handle was ever stored, `some true`
for an armed handle and `some false` for a cancelled one
(`_cancel_disconnect_timer` cancels the handle but does not clear the
field); `disconnect_time` is the absolute deadline in milliseconds
(`time_ns() // 1e6 + timeout * 1e3`, exact for realistic magnitudes). -/
structure MotionDeviceState where
  connection_type : MotionConnectionType
  connection_task : Bool
  last_connection_caller_time : Option Nat
  attempts_started : Nat
  current_bleak_client : Bool
  disconnect_time : Option Int
  disconnect_timer : Option Bool
deriving DecidableEq

/-- A freshly constructed, disconnected `MotionDevice`. -/
def initialDevice : MotionDeviceState :=
  { connection_type := .DISCONNECTED
    connection_task := false
    last_connection_caller_time := none
    attempts_started := 0
    current_bleak_client := false
    disconnect_time := none
    disconnect_timer := none }

/-- Method `_cancel_disconnect_timer`: if a timer handle is stored, cancel it
(the handle itself stays stored). -/
def cancel_disconnect_timer (s : MotionDeviceState) : MotionDeviceState :=
  match s.disconnect_timer with
  | some _ => { s with disconnect_timer := some false }
  | none => s

/-- Comparison `self._disconnect_time > new_disconnect_time` as evaluated in
`refresh_disconnect_timer`. The `none` case would be a Python `TypeError`;
it is unreachable because a stored timer handle always comes with a stored
deadline (they are only ever set together). -/
def disconnect_time_gt (t : Option Int) (new : Int) : Bool :=
  match t with
  | some d => new < d
  | none => false

/-- Method `refresh_disconnect_timer(timeout, force)`: compute the candidate
deadline `now + timeout`; when `force` is false, a stored timer handle
exists and the current deadline is strictly later, do nothing; otherwise
cancel any existing timer and arm a new one at the candidate deadline.
`now_ms` models `time_ns() // 1e6` and `timeout` is in seconds (already
defaulted: `SETTING_DISCONNECT_TIME if timeout is None else timeout`). -/
def refresh_disconnect_timer (s : MotionDeviceState) (now_ms timeout : Int)
    (force : Bool) : MotionDeviceState :=
  let new_disconnect_time := now_ms + timeout * 1000
  if force = false ∧ s.disconnect_timer ≠ none ∧
      disconnect_time_gt s.disconnect_time new_disconnect_time = true then
    s
  else
    let s1 := cancel_disconnect_timer s
    { s1 with
      disconnect_time := some new_disconnect_time
      disconnect_timer := some true }

/-- Method `disconnect`: set `DISCONNECTING`; if a connection task is in flight,
cancel it (its waiters then resolve through the `CancelledError` branch of
`_connect_if_not_connecting`), cancel the disconnect timer and clear the
task record; if a client handle exists, cancel the timer, disconnect the
transport and clear the handle; finally set `DISCONNECTED`. -/
def disconnect_device (s : MotionDeviceState) : MotionDeviceState :=
  let s1 := { s with connection_type := MotionConnectionType.DISCONNECTING }
  let s2 :=
    if s1.connection_task then
      { cancel_disconnect_timer s1 with connection_task := false }
    else s1
  let s3 :=
    if s2.current_bleak_client then
      { cancel_disconnect_timer s2 with current_bleak_client := false }
    else s2
  { s3 with connection_type := MotionConnectionType.DISCONNECTED }

/-- The synchronous prefix of `_connect_if_not_connecting` (lines 301-314):
record this caller's `time_ns()` stamp as the most recent caller, and
create a connection task only if none is in flight. Because the prefix has
no `await`, concurrent callers on the event loop execute it atomically in
arrival order. -/
def connect_register (s : MotionDeviceState)
    (this_connection_caller_time : Nat) : MotionDeviceState :=
  let s1 := { s with
    last_connection_caller_time := some this_connection_caller_time }
  if s1.connection_task then s1
  else { s1 with
    connection_task := true
    attempts_started := s1.attempts_started + 1 }

/-- A sequence of concurrent callers entering `_connect_if_not_connecting`
in arrival order (strictly increasing `time_ns()` stamps). -/
def connect_register_all (s : MotionDeviceState) (ts : List Nat) :
    MotionDeviceState :=
  ts.foldl connect_register s

/-- How the awaited connection task resolved for a waiter: normal result,
cancellation, or one of the two propagated bleak errors. -/
inductive TaskOutcome where
  | success (ready : Bool)
  | cancelled
  | bleakNotFound
  | bleakOutOfSlots
deriving DecidableEq

/-- What `_connect_if_not_connecting` does for one waiter: return a bool
or raise. -/
inductive ConnectResult where
  | returned (b : Bool)
  | raised (e : PyError)
deriving DecidableEq

/-- The resumption suffix of `_connect_if_not_connecting` (lines 317-335)
for one waiter whose stamp is `this_connection_caller_time`: on a `False`
task result return `False`; on bleak errors reset to `DISCONNECTED`, clear
the task and re-raise; on cancellation reset to `DISCONNECTED`, clear the
task and return `False`; on success clear the task and return whether this
waiter is the most recent caller. -/
def connect_await_result (s : MotionDeviceState) (outcome : TaskOutcome)
    (this_connection_caller_time : Nat) :
    MotionDeviceState × ConnectResult :=
  match outcome with
  | .success ready =>
    if ready = false then (s, .returned false)
    else
      let s1 := { s with connection_task := false }
      (s1, .returned
        (decide (s1.last_connection_caller_time =
          some this_connection_caller_time)))
  | .cancelled =>
    ({ s with
        connection_type := MotionConnectionType.DISCONNECTED
        connection_task := false },
      .returned false)
  | .bleakNotFound =>
    ({ s with
        connection_type := MotionConnectionType.DISCONNECTED
        connection_task := false },
      .raised .bleakNotFound)
  | .bleakOutOfSlots =>
    ({ s with
        connection_type := MotionConnectionType.DISCONNECTED
        connection_task := false },
      .raised .bleakOutOfSlots)

/-- How one call to `_send_command` can end: a successful write returns
`True`; a missing client handle returns `False`; falling off the end of
the `while` loop is Python's implicit `return None`; the
`number_of_tries == SETTING_MAX_COMMAND_ATTEMPTS` branch disconnects and
re-raises the `BleakError`. -/
inductive SendResult where
  | returnedTrue
  | returnedFalse
  | returnedNone
  | raisedAfterDisconnect
deriving DecidableEq

/-- The retry loop of `_send_command` (lines 392-415). `maxAttempts` is
`SETTING_MAX_COMMAND_ATTEMPTS` (the constant lives in `const.py`, outside
the reviewed source, so it is a parameter). `client` models
`self._current_bleak_client is not None`; `failsAt n` tells whether the
write on iteration with `number_of_tries = n` raises a `BleakError`.
`fuel` bounds the recursion; `send_command` supplies enough fuel that the
zero case is never reached. -/
def send_loop (maxAttempts : Nat) (client : Bool) (failsAt : Nat → Bool) :
    Nat → Nat → SendResult
  | 0, _ => .returnedNone
  | fuel + 1, number_of_tries =>
    if number_of_tries < maxAttempts then
      if client then
        if failsAt number_of_tries then
          if number_of_tries = maxAttempts then .raisedAfterDisconnect
          else send_loop maxAttempts client failsAt fuel (number_of_tries + 1)
        else .returnedTrue
      else .returnedFalse
    else .returnedNone

/-- Method `_send_command` entered with `number_of_tries = 0`. -/
def send_command (maxAttempts : Nat) (client : Bool)
    (failsAt : Nat → Bool) : SendResult :=
  send_loop maxAttempts client failsAt (maxAttempts + 1) 0

/-- Lowercase hex digit, as in Python's `hex`. -/
def hexDigitChar (n : Nat) : Char :=
  if n < 10 then Char.ofNat (48 + n) else Char.ofNat (87 + n)

/-- Digits of `n` in base 16, most significant first (`fuel ≥ 1` suffices
whenever `fuel ≥ n + 1`). -/
def hexAux : Nat → Nat → List Char
  | 0, _ => []
  | fuel + 1, n =>
    if n < 16 then [hexDigitChar n]
    else hexAux fuel (n / 16) ++ [hexDigitChar (n % 16)]

/-- Python `hex(n)[2:]` for a nonnegative `n`. -/
def pyHex (n : Nat) : String :=
  String.mk (hexAux (n + 1) n)

/-- Python `str.zfill(w)` for a digit string without sign. -/
def zfill (w : Nat) (s : String) : String :=
  if w ≤ s.length then s
  else String.mk (List.replicate (w - s.length) '0') ++ s

/-- Observable steps of a composed command method: the
`requires_connection` wrapper invoking `self.connect()`, the
`requires_end_positions` wrapper evaluating its guard, and
`_send_command` being invoked with the built frame. -/
inductive CallEv where
  | connectAttempt
  | endPositionGuard
  | writeCommand (frame : String)
deriving DecidableEq

/-- Outcome of a composed command method. -/
inductive CallOutcome where
  | returnedFalse
  | raised (e : PyError)
  | sent (frame : String)
deriving DecidableEq

/-- The composed `percentage` method. Decorators apply bottom-up, so
`percentage = requires_connection(requires_end_positions(body))` and the
`requires_connection` wrapper runs first: it calls `self.connect()` and
returns `False` if the device is not ready; only then does the
`requires_end_positions` wrapper evaluate its guard; only then does the
body assert `not percentage < 0 and not percentage > 100` and build
`str(MotionCommandType.PERCENT.value) + hex(percentage)[2:].zfill(2) +
"00"` (the `PERCENT` command byte lives in `const.py`, so it is the
parameter `percent_cmd`). The trace lists the observable steps in
execution order. -/
def percentage_call (percent_cmd : String) (connect_ready : Bool)
    (info : Option MotionPositionInfo) (ignore_end_positions_not_set : Bool)
    (p : Int) : List CallEv × CallOutcome :=
  if connect_ready = false then
    ([.connectAttempt], .returnedFalse)
  else if end_positions_guard_raises info ignore_end_positions_not_set then
    ([.connectAttempt, .endPositionGuard], .raised .noEndPositions)
  else if p < 0 ∨ 100 < p then
    ([.connectAttempt, .endPositionGuard], .raised .assertionError)
  else
    let frame := percent_cmd ++ zfill 2 (pyHex p.toNat) ++ "00"
    ([.connectAttempt, .endPositionGuard, .writeCommand frame], .sent frame)

/-! ## Helper lemmas -/

theorem pythonRound_def (x : ℚ) :
    pythonRound x =
      if x - ⌊x⌋ < 1/2 then ⌊x⌋
      else if 1/2 < x - ⌊x⌋ then ⌊x⌋ + 1
      else if ⌊x⌋ % 2 = 0 then ⌊x⌋ else ⌊x⌋ + 1 := rfl

/-- Python's half-to-even round agrees with Mathlib's half-up `round`
away from ties. -/
theorem pythonRound_eq_round (x : ℚ) (h : Int.fract x ≠ 1/2) :
    pythonRound x = round x := by
  have hfr : x - (⌊x⌋ : ℚ) = Int.fract x := Int.self_sub_floor x
  have h0 : (0:ℚ) ≤ Int.fract x := Int.fract_nonneg x
  have h1 : Int.fract x < 1 := Int.fract_lt_one x
  rw [pythonRound_def, round_eq, hfr]
  rcases lt_trichotomy (Int.fract x) (1/2) with hlt | heq | hgt
  · rw [if_pos hlt]
    symm
    rw [Int.floor_eq_iff]
    constructor
    · have := Int.floor_le x
      linarith
    · linarith
  · exact absurd heq h
  · rw [if_neg (by linarith), if_pos hgt]
    symm
    rw [Int.floor_eq_iff]
    constructor
    · push_cast
      linarith
    · push_cast
      linarith

/-- The value `100 * a / 180 = 10 * a / 9` is never a half-integer: a tie would force
the even number `10 * a` to equal the odd number `18 * ⌊x⌋ + 9`. -/
theorem angle_no_tie (a : ℕ) : Int.fract ((100 * a : ℚ) / 180) ≠ 1/2 := by
  intro h
  set x : ℚ := (100 * a) / 180 with hx
  have hfr : x - (⌊x⌋ : ℚ) = Int.fract x := Int.self_sub_floor x
  have h2 : x = (⌊x⌋ : ℚ) + 1/2 := by rw [← hfr] at h; linarith
  have h5 : (10 * (a : ℚ)) = 18 * ((⌊x⌋ : ℤ) : ℚ) + 9 := by
    rw [hx] at h2
    field_simp at h2
    linarith
  have h6 : (10 * (a : ℤ)) = 18 * ⌊x⌋ + 9 := by exact_mod_cast h5
  omega

theorem angle_percentage_eq_round (a : ℕ) :
    angle_percentage a = round ((100 * a : ℚ) / 180) :=
  pythonRound_eq_round _ (angle_no_tie a)

theorem truthy_pyOr_bool_int (x : Bool) (y : Nat) :
    (pyOr (.bool x) (.int y)).truthy = (x || (y != 0)) := by
  cases x <;> simp [pyOr, PyVal.truthy]

theorem make_FAVORITE (e f : Nat) :
    (MotionPositionInfo.make e f).FAVORITE =
      pyOr (.bool ((f &&& 0xFF00) != 0x00)) (.int (f &&& 0x00FF)) := rfl

/-! ## Claims -/

/-- C5: for every angle byte `a` in `0..180`, decoding a position frame
computes the tilt percentage as `round(100 * a / 180)`; in particular
angle 90 yields 50, angle 0 yields 0, and angle 180 yields 100. -/
theorem position_frame_tilt_rounding (isv : Nat → Bool)
    (s : NotificationState) (b : List Nat)
    (hreg : s.position_callback = true) (ha : b.getD 7 0 ≤ 180) :
    (notification_callback isv s (some .PERCENT) b).2 =
      some (.position (b.getD 6 0)
        (round ((100 * (b.getD 7 0) : ℚ) / 180))
        (MotionPositionInfo.make (b.getD 4 0)
          ((b.getD 6 0) * 256 + (b.getD 7 0))))
    ∧ angle_percentage 90 = 50
    ∧ angle_percentage 0 = 0
    ∧ angle_percentage 180 = 100 := by
  refine ⟨?_, ?_, ?_, ?_⟩
  · simp [notification_callback, hreg, angle_percentage_eq_round]
  · rw [angle_percentage_eq_round]; norm_num [round_eq]
  · rw [angle_percentage_eq_round]; norm_num [round_eq]
  · rw [angle_percentage_eq_round]; norm_num [round_eq]

/-- Witness for C5 at a concrete position frame with angle byte 90. -/
theorem position_frame_tilt_rounding_witness :
    (notification_callback (fun _ => false)
      { end_position_info := none, position_callback := true,
        running_callback := false, status_callback := false }
      (some .PERCENT) [5, 5, 5, 5, 12, 0, 50, 90]).2 =
      some (.position 50 (round ((100 * 90 : ℚ) / 180))
        (MotionPositionInfo.make 12 (50 * 256 + 90)))
    ∧ angle_percentage 90 = 50
    ∧ angle_percentage 0 = 0
    ∧ angle_percentage 180 = 100 :=
  position_frame_tilt_rounding (fun _ => false) _ _ rfl (by decide)

/-- C6: for every 16-bit favorite field value `f`, the constructed
`FAVORITE` field is truthy iff `f` is non-zero: truthy for `0x0001`,
`0x0100` and `0xFFFF`, falsy only for `0x0000`. -/
theorem favorite_truthy_iff_nonzero (e f : Nat) (hf : f < 65536) :
    ((MotionPositionInfo.make e f).FAVORITE.truthy = true ↔ f ≠ 0)
    ∧ (MotionPositionInfo.make e 0x0001).FAVORITE.truthy = true
    ∧ (MotionPositionInfo.make e 0x0100).FAVORITE.truthy = true
    ∧ (MotionPositionInfo.make e 0xFFFF).FAVORITE.truthy = true
    ∧ (MotionPositionInfo.make e 0x0000).FAVORITE.truthy = false := by
  have hzero : ∀ g : Nat, g &&& 0xFF00 = 0 → g &&& 0x00FF = 0 → g < 65536 → g = 0 := by
    intro g h1 h2 hg
    have hdist : g &&& (0xFF00 ||| 0x00FF) = (g &&& 0xFF00) ||| (g &&& 0x00FF) :=
      Nat.and_or_distrib_left g 0xFF00 0x00FF
    have hmask : (0xFF00 ||| 0x00FF : Nat) = 0xFFFF := by decide
    have hpow : g &&& 0xFFFF = g % 65536 := by
      have := Nat.and_pow_two_sub_one_eq_mod g 16
      norm_num at this
      exact this
    have : g % 65536 = 0 := by
      rw [← hpow, ← hmask, hdist, h1, h2]
      decide
    rwa [Nat.mod_eq_of_lt hg] at this
  refine ⟨?_, ?_, ?_, ?_, ?_⟩
  · rw [make_FAVORITE, truthy_pyOr_bool_int]
    constructor
    · intro h hf0
      subst hf0
      simpa using h
    · intro hne
      by_contra hcon
      simp only [Bool.or_eq_true, bne_iff_ne, ne_eq, not_or, not_not] at hcon
      exact hne (hzero f hcon.1 hcon.2 hf)
  · rw [make_FAVORITE]; decide
  · rw [make_FAVORITE]; decide
  · rw [make_FAVORITE]; decide
  · rw [make_FAVORITE]; decide

/-- Witness for C6 at `f = 0x0100`. -/
theorem favorite_truthy_iff_nonzero_witness :
    ((MotionPositionInfo.make 0 0x0100).FAVORITE.truthy = true ↔ (0x0100 : Nat) ≠ 0)
    ∧ (MotionPositionInfo.make 0 0x0001).FAVORITE.truthy = true
    ∧ (MotionPositionInfo.make 0 0x0100).FAVORITE.truthy = true
    ∧ (MotionPositionInfo.make 0 0xFFFF).FAVORITE.truthy = true
    ∧ (MotionPositionInfo.make 0 0x0000).FAVORITE.truthy = false :=
  favorite_truthy_iff_nonzero 0 0x0100 (by decide)

/-- C7: a movement command with known end-position info whose `UP` flag is
false raises the calibration-required error, unless the bypass flag
`ignore_end_positions_not_set` is set, in which case it proceeds; with
unknown end-position info (`None`) the guard passes. -/
theorem end_positions_guard_behaviour {α : Type}
    (info : Option MotionPositionInfo) (ignore : Bool) (body : α) :
    (requires_end_positions_wrap info ignore body = .error .noEndPositions ↔
      (∃ i, info = some i ∧ i.UP = false) ∧ ignore = false)
    ∧ (info = none → requires_end_positions_wrap info ignore body = .ok body)
    ∧ (ignore = true → requires_end_positions_wrap info ignore body = .ok body) := by
  rcases info with _ | i
  · cases ignore <;>
      simp [requires_end_positions_wrap, end_positions_guard_raises]
  · cases ignore <;> cases hU : i.UP <;>
      simp [requires_end_positions_wrap, end_positions_guard_raises, hU]

/-- Witness for C7: the three guard behaviours at concrete inputs. -/
theorem end_positions_guard_behaviour_witness :
    requires_end_positions_wrap (α := Bool)
      (some { UP := false, DOWN := false, FAVORITE := .int 0 }) false true
      = .error .noEndPositions
    ∧ requires_end_positions_wrap (α := Bool) none false true = .ok true
    ∧ requires_end_positions_wrap (α := Bool)
      (some { UP := false, DOWN := false, FAVORITE := .int 0 }) true true
      = .ok true :=
  ⟨(end_positions_guard_behaviour _ _ _).1.mpr ⟨⟨_, rfl, rfl⟩, rfl⟩,
    (end_positions_guard_behaviour _ _ _).2.1 rfl,
    (end_positions_guard_behaviour _ _ _).2.2 rfl⟩

/-- C8: decoding a position frame replaces the cached `EndPositionInfo`
wholesale with a value computed from that single frame — the new cached
value does not depend on the previously cached one — and emits a position
event carrying the position percentage, the angle percentage, and the new
end-position info. -/
theorem position_frame_replaces_info (isv : Nat → Bool)
    (s1 s2 : NotificationState) (b : List Nat)
    (h1 : s1.position_callback = true) (h2 : s2.position_callback = true) :
    ((notification_callback isv s1 (some .PERCENT) b).1.end_position_info
      = (notification_callback isv s2 (some .PERCENT) b).1.end_position_info)
    ∧ (notification_callback isv s1 (some .PERCENT) b).1.end_position_info
      = some (MotionPositionInfo.make (b.getD 4 0)
          ((b.getD 6 0) * 256 + (b.getD 7 0)))
    ∧ (notification_callback isv s1 (some .PERCENT) b).2
      = some (.position (b.getD 6 0) (angle_percentage (b.getD 7 0))
          (MotionPositionInfo.make (b.getD 4 0)
            ((b.getD 6 0) * 256 + (b.getD 7 0)))) := by
  refine ⟨?_, ?_, ?_⟩ <;> simp [notification_callback, h1, h2]

/-- Witness for C8: two decoder states with different cached info decode
the same frame to the same replacement info and event. -/
theorem position_frame_replaces_info_witness :
    ((notification_callback (fun _ => false)
        { end_position_info :=
            some { UP := true, DOWN := true, FAVORITE := .bool true },
          position_callback := true, running_callback := false,
          status_callback := false }
        (some .PERCENT) [7, 7, 7, 7, 12, 1, 50, 90]).1.end_position_info
      = (notification_callback (fun _ => false)
          { end_position_info := none, position_callback := true,
            running_callback := false, status_callback := false }
          (some .PERCENT) [7, 7, 7, 7, 12, 1, 50, 90]).1.end_position_info)
    ∧ (notification_callback (fun _ => false)
        { end_position_info :=
            some { UP := true, DOWN := true, FAVORITE := .bool true },
          position_callback := true, running_callback := false,
          status_callback := false }
        (some .PERCENT) [7, 7, 7, 7, 12, 1, 50, 90]).1.end_position_info
      = some (MotionPositionInfo.make 12 (50 * 256 + 90))
    ∧ (notification_callback (fun _ => false)
        { end_position_info :=
            some { UP := true, DOWN := true, FAVORITE := .bool true },
          position_callback := true, running_callback := false,
          status_callback := false }
        (some .PERCENT) [7, 7, 7, 7, 12, 1, 50, 90]).2
      = some (.position 50 (angle_percentage 90)
          (MotionPositionInfo.make 12 (50 * 256 + 90))) :=
  position_frame_replaces_info (fun _ => false) _ _ _ rfl rfl

/-- C4: `refresh_disconnect_timer` with `force = false` is a no-op when a
timer is armed with a deadline later than `now + timeout`, and never moves
an armed deadline earlier; with `force = true` it always cancels the
existing timer and arms a new one with deadline `now + timeout`. -/
theorem refresh_timer_policy (s : MotionDeviceState)
    (now_ms timeout d : Int)
    (harmed : s.disconnect_timer = some true)
    (htime : s.disconnect_time = some d) :
    (now_ms + timeout * 1000 < d →
      refresh_disconnect_timer s now_ms timeout false = s)
    ∧ (∀ d2, (refresh_disconnect_timer s now_ms timeout false).disconnect_time
        = some d2 → d ≤ d2)
    ∧ refresh_disconnect_timer s now_ms timeout true =
        { s with
          disconnect_time := some (now_ms + timeout * 1000)
          disconnect_timer := some true } := by
  refine ⟨?_, ?_, ?_⟩
  · intro hlt
    rw [refresh_disconnect_timer, if_pos]
    refine ⟨rfl, by rw [harmed]; exact Option.noConfusion, ?_⟩
    rw [htime]
    simpa [disconnect_time_gt] using hlt
  · intro d2 hd2
    rw [refresh_disconnect_timer] at hd2
    split at hd2
    · rename_i hcond
      rw [htime] at hd2
      have : d = d2 := by simpa using hd2
      omega
    · rename_i hcond
      have hd2' : now_ms + timeout * 1000 = d2 := by simpa using hd2
      have : ¬ (now_ms + timeout * 1000 < d) := by
        intro hlt
        exact hcond ⟨rfl, by rw [harmed]; exact Option.noConfusion,
          by rw [htime]; simpa [disconnect_time_gt] using hlt⟩
      omega
  · rw [refresh_disconnect_timer, if_neg (by simp)]
    rw [cancel_disconnect_timer]
    rw [harmed]

/-- Witness for C4 at a concrete armed state. -/
theorem refresh_timer_policy_witness :
    ((1000 : Int) + 2 * 1000 < 100000 →
      refresh_disconnect_timer
        { initialDevice with
          disconnect_time := some 100000
          disconnect_timer := some true } 1000 2 false =
        { initialDevice with
          disconnect_time := some 100000
          disconnect_timer := some true })
    ∧ (∀ d2, (refresh_disconnect_timer
        { initialDevice with
          disconnect_time := some 100000
          disconnect_timer := some true } 1000 2 false).disconnect_time
        = some d2 → (100000 : Int) ≤ d2)
    ∧ refresh_disconnect_timer
        { initialDevice with
          disconnect_time := some 100000
          disconnect_timer := some true } 1000 2 true =
        { { initialDevice with
            disconnect_time := some 100000
            disconnect_timer := some true } with
          disconnect_time := some ((1000 : Int) + 2 * 1000)
          disconnect_timer := some true } :=
  refresh_timer_policy _ 1000 2 100000 rfl rfl

/-- C9: disconnecting while a connection attempt is in flight clears the
in-flight record, cancels the disconnect timer and ends `DISCONNECTED`;
each coalesced waiter of the cancelled task resolves with `False` (not an
error) and sets state `DISCONNECTED`; disconnecting when already
disconnected only (redundantly) sets state `DISCONNECTED`. -/
theorem disconnect_behaviour (s s2 : MotionDeviceState) (t : Nat) :
    (s.connection_task = true →
      (disconnect_device s).connection_task = false
      ∧ (disconnect_device s).connection_type =
          MotionConnectionType.DISCONNECTED
      ∧ (disconnect_device s).disconnect_timer ≠ some true)
    ∧ connect_await_result s2 .cancelled t =
        ({ s2 with
            connection_type := MotionConnectionType.DISCONNECTED
            connection_task := false },
          .returned false)
    ∧ (s.connection_task = false → s.current_bleak_client = false →
        disconnect_device s = { s with
          connection_type := MotionConnectionType.DISCONNECTED }) := by
  obtain ⟨ct, task, lt, att, cbc, dt, dtm⟩ := s
  refine ⟨?_, rfl, ?_⟩
  · intro htask
    subst htask
    cases cbc <;> cases dtm <;>
      simp [disconnect_device, cancel_disconnect_timer]
  · intro htask hcbc
    subst htask
    subst hcbc
    simp [disconnect_device, cancel_disconnect_timer]

/-- Witness for C9 at a concrete in-flight state. -/
theorem disconnect_behaviour_witness :
    ((disconnect_device { initialDevice with
        connection_type := MotionConnectionType.CONNECTING
        connection_task := true
        disconnect_timer := some true
        disconnect_time := some 5000 }).connection_task = false
      ∧ (disconnect_device { initialDevice with
          connection_type := MotionConnectionType.CONNECTING
          connection_task := true
          disconnect_timer := some true
          disconnect_time := some 5000 }).connection_type =
            MotionConnectionType.DISCONNECTED
      ∧ (disconnect_device { initialDevice with
          connection_type := MotionConnectionType.CONNECTING
          connection_task := true
          disconnect_timer := some true
          disconnect_time := some 5000 }).disconnect_timer ≠ some true)
    ∧ connect_await_result initialDevice .cancelled 42 =
        ({ initialDevice with
            connection_type := MotionConnectionType.DISCONNECTED
            connection_task := false },
          .returned false)
    ∧ (initialDevice.connection_task = false →
        initialDevice.current_bleak_client = false →
        disconnect_device initialDevice = { initialDevice with
          connection_type := MotionConnectionType.DISCONNECTED }) :=
  ⟨(disconnect_behaviour { initialDevice with
      connection_type := MotionConnectionType.CONNECTING
      connection_task := true
      disconnect_timer := some true
      disconnect_time := some 5000 } initialDevice 42).1 rfl,
    (disconnect_behaviour initialDevice initialDevice 42).2.1,
    (disconnect_behaviour initialDevice initialDevice 42).2.2⟩

theorem connect_register_last (s : MotionDeviceState) (t : Nat) :
    (connect_register s t).last_connection_caller_time = some t := by
  rw [connect_register]
  split <;> rfl

theorem connect_register_task (s : MotionDeviceState) (t : Nat) :
    (connect_register s t).connection_task = true := by
  rw [connect_register]
  split
  · rename_i h
    exact h
  · rfl

theorem connect_register_attempts_of_task (s : MotionDeviceState) (t : Nat)
    (h : s.connection_task = true) :
    (connect_register s t).attempts_started = s.attempts_started := by
  rw [connect_register]
  split
  · rfl
  · rename_i hcon
    exact absurd h hcon

theorem connect_register_all_attempts_of_task (ts : List Nat) :
    ∀ s : MotionDeviceState, s.connection_task = true →
      (connect_register_all s ts).attempts_started = s.attempts_started := by
  induction ts with
  | nil => intro s _; rfl
  | cons x xs ih =>
    intro s hs
    rw [connect_register_all, List.foldl_cons]
    rw [show List.foldl connect_register (connect_register s x) xs =
      connect_register_all (connect_register s x) xs from rfl]
    rw [ih _ (connect_register_task s x)]
    exact connect_register_attempts_of_task s x hs

theorem connect_register_all_last (ts : List Nat) :
    ∀ (s : MotionDeviceState) (hne : ts ≠ []),
      (connect_register_all s ts).last_connection_caller_time =
        some (ts.getLast hne) := by
  induction ts with
  | nil => intro s hne; exact absurd rfl hne
  | cons x xs ih =>
    intro s hne
    cases xs with
    | nil => simpa [connect_register_all] using connect_register_last s x
    | cons y ys =>
      rw [connect_register_all, List.foldl_cons]
      rw [show List.foldl connect_register (connect_register s x) (y :: ys) =
        connect_register_all (connect_register s x) (y :: ys) from rfl]
      rw [ih _ (List.cons_ne_nil y ys)]
      rw [List.getLast_cons (List.cons_ne_nil y ys)]

/-- C1: for a nonempty batch of concurrent `connect` callers arriving while
disconnected with strictly increasing `time_ns()` stamps, exactly one
physical connection task is started, and on success of that task exactly
the caller with the latest stamp gets `True`; every earlier coalesced
caller gets `False`. -/
theorem coalesced_connect_last_caller_wins (ts : List Nat) (hne : ts ≠ [])
    (hchain : ts.Chain' (· < ·)) :
    (connect_register_all initialDevice ts).attempts_started = 1
    ∧ (connect_await_result (connect_register_all initialDevice ts)
        (.success true) (ts.getLast hne)).2 = .returned true
    ∧ ∀ i (hi : i < ts.length), i + 1 < ts.length →
        (connect_await_result (connect_register_all initialDevice ts)
          (.success true) ts[i]).2 = .returned false := by
  have hlast := connect_register_all_last ts initialDevice hne
  refine ⟨?_, ?_, ?_⟩
  · rcases hts : ts with _ | ⟨x, xs⟩
    · exact absurd hts hne
    · rw [connect_register_all, List.foldl_cons]
      rw [show List.foldl connect_register (connect_register initialDevice x) xs =
        connect_register_all (connect_register initialDevice x) xs from rfl]
      rw [connect_register_all_attempts_of_task xs _
        (connect_register_task initialDevice x)]
      rfl
  · rw [connect_await_result]
    simp only [Bool.true_eq_false, if_false]
    rw [show ({ connect_register_all initialDevice ts with
        connection_task := false } :
        MotionDeviceState).last_connection_caller_time =
      (connect_register_all initialDevice ts).last_connection_caller_time
      from rfl]
    rw [hlast]
    simp
  · intro i hi hi1
    have hpw : ts.Pairwise (· < ·) :=
      (List.chain'_iff_pairwise).1 hchain
    have hlt : ts[i] < ts.getLast hne := by
      rw [List.getLast_eq_getElem]
      exact List.pairwise_iff_getElem.1 hpw i (ts.length - 1) hi
        (by omega) (by omega)
    rw [connect_await_result]
    simp only [Bool.true_eq_false, if_false]
    rw [show ({ connect_register_all initialDevice ts with
        connection_task := false } :
        MotionDeviceState).last_connection_caller_time =
      (connect_register_all initialDevice ts).last_connection_caller_time
      from rfl]
    rw [hlast]
    simp
    omega

/-- Witness for C1 with two coalesced callers stamped 5 and 9. -/
theorem coalesced_connect_last_caller_wins_witness :
    (connect_register_all initialDevice [5, 9]).attempts_started = 1
    ∧ (connect_await_result (connect_register_all initialDevice [5, 9])
        (.success true) (([5, 9] : List Nat).getLast (by decide))).2 =
        .returned true
    ∧ (connect_await_result (connect_register_all initialDevice [5, 9])
        (.success true) 5).2 = .returned false :=
  ⟨(coalesced_connect_last_caller_wins [5, 9] (by decide)
      (by simp [List.chain'_cons])).1,
    (coalesced_connect_last_caller_wins [5, 9] (by decide)
      (by simp [List.chain'_cons])).2.1,
    (coalesced_connect_last_caller_wins [5, 9] (by decide)
      (by simp [List.chain'_cons])).2.2 0 (by decide) (by decide)⟩

theorem send_loop_always_fail (maxAttempts : Nat) :
    ∀ fuel number_of_tries,
      send_loop maxAttempts true (fun _ => true) fuel number_of_tries =
        .returnedNone := by
  intro fuel
  induction fuel with
  | zero => intro n; rfl
  | succ fuel ih =>
    intro n
    rw [send_loop]
    by_cases hn : n < maxAttempts
    · rw [if_pos hn, if_pos rfl, if_pos rfl, if_neg (Nat.ne_of_lt hn)]
      exact ih (n + 1)
    · rw [if_neg hn]

/-- C2: the claimed exhaustion behaviour is the one the code's own dead
branch intends but never reaches. The loop guard is
`number_of_tries < SETTING_MAX_COMMAND_ATTEMPTS` while the re-raise
branch tests `number_of_tries == SETTING_MAX_COMMAND_ATTEMPTS`, which is
unsatisfiable inside the loop body: when every write raises a
`BleakError`, `_send_command` falls off the loop and implicitly returns
`None` — no disconnect is triggered and no error is re-raised, for every
value of the attempt ceiling. A transient failure sequence that succeeds
before the ceiling does return `True` with no disconnect. -/
theorem send_command_exhaustion_returns_none :
    (∀ maxAttempts : Nat,
      send_command maxAttempts true (fun _ => true) = .returnedNone)
    ∧ send_command 3 true (fun k => k < 2) = .returnedTrue
    ∧ send_command 3 true (fun _ => true) = .returnedNone :=
  ⟨fun maxAttempts => send_loop_always_fail maxAttempts _ 0,
    by decide, by decide⟩

/-- C3 counterexample: a `percentage` call that is doomed to fail the
end-position guard (info known, `UP` false, no bypass) nevertheless has
the connection attempt as its first observable step — the
`requires_connection` decorator is outermost, so `self.connect()` runs
before the guard is evaluated. -/
theorem guard_after_connect_counterexample :
    (percentage_call "" true
      (some { UP := false, DOWN := false, FAVORITE := .int 0 }) false 50).2
      = .raised .noEndPositions
    ∧ (percentage_call "" true
        (some { UP := false, DOWN := false, FAVORITE := .int 0 }) false 50).1
      = [.connectAttempt, .endPositionGuard] := by
  constructor <;> rfl

/-- C3 amended: for every movement command built like `percentage`, the
connection coordinator is invoked before the end-position guard is
evaluated (the `requires_connection` decorator is outermost), so a
command doomed to fail the guard still starts a connection attempt; the
guard is evaluated only after `connect()` reports ready. -/
theorem connect_runs_before_guard (percent_cmd : String)
    (connect_ready : Bool) (info : Option MotionPositionInfo)
    (ignore : Bool) (p : Int) :
    (percentage_call percent_cmd connect_ready info ignore p).1.head?
      = some .connectAttempt
    ∧ (connect_ready = false →
        (percentage_call percent_cmd connect_ready info ignore p).1
          = [.connectAttempt])
    ∧ (connect_ready = true → end_positions_guard_raises info ignore = true →
        percentage_call percent_cmd connect_ready info ignore p
          = ([.connectAttempt, .endPositionGuard], .raised .noEndPositions)) := by
  refine ⟨?_, ?_, ?_⟩
  · rw [percentage_call]
    split
    · rfl
    · split
      · rfl
      · split
        · rfl
        · rfl
  · intro h
    subst h
    rfl
  · intro h hg
    subst h
    rw [percentage_call, if_neg (by simp), if_pos hg]

/-- Witness for C3's amended claim at concrete inputs. -/
theorem connect_runs_before_guard_witness :
    (percentage_call "0d" true
      (some { UP := false, DOWN := false, FAVORITE := .int 0 }) false 50).1.head?
      = some .connectAttempt
    ∧ (percentage_call "0d" false
        (some { UP := false, DOWN := false, FAVORITE := .int 0 }) false 50).1
      = [.connectAttempt]
    ∧ percentage_call "0d" true
        (some { UP := false, DOWN := false, FAVORITE := .int 0 }) false 50
      = ([.connectAttempt, .endPositionGuard], .raised .noEndPositions) :=
  ⟨(connect_runs_before_guard "0d" true _ false 50).1,
    (connect_runs_before_guard "0d" false _ false 50).2.1 rfl,
    (connect_runs_before_guard "0d" true _ false 50).2.2 rfl rfl⟩

theorem zfill_pyHex_length_two : ∀ n : Fin 101, (zfill 2 (pyHex n)).length = 2 := by
  decide

/-- C10: with a ready connection and a passing guard, `percentage p` for
`0 ≤ p ≤ 100` hands `_send_command` the frame `percent-command-byte ++
(p as exactly two hex digits) ++ "00"`; for `p` outside `0..100` the
assertion fails and nothing is ever written. -/
theorem percentage_frame_layout (percent_cmd : String)
    (info : Option MotionPositionInfo) (ignore : Bool) (p : Int)
    (hg : end_positions_guard_raises info ignore = false) :
    (0 ≤ p ∧ p ≤ 100 →
      percentage_call percent_cmd true info ignore p =
        ([.connectAttempt, .endPositionGuard,
          .writeCommand (percent_cmd ++ zfill 2 (pyHex p.toNat) ++ "00")],
          .sent (percent_cmd ++ zfill 2 (pyHex p.toNat) ++ "00"))
      ∧ (zfill 2 (pyHex p.toNat)).length = 2)
    ∧ ((p < 0 ∨ 100 < p) →
        percentage_call percent_cmd true info ignore p =
          ([.connectAttempt, .endPositionGuard], .raised .assertionError)
        ∧ ∀ f, CallEv.writeCommand f ∉
            (percentage_call percent_cmd true info ignore p).1) := by
  constructor
  · intro hrange
    constructor
    · rw [percentage_call, if_neg (by simp), if_neg (by simp [hg]),
        if_neg (by omega)]
    · have hle : p.toNat ≤ 100 := by omega
      exact zfill_pyHex_length_two ⟨p.toNat, by omega⟩
  · intro hout
    have heq : percentage_call percent_cmd true info ignore p =
        ([.connectAttempt, .endPositionGuard], .raised .assertionError) := by
      rw [percentage_call, if_neg (by simp), if_neg (by simp [hg]),
        if_pos hout]
    refine ⟨heq, ?_⟩
    intro f hf
    rw [heq] at hf
    simp at hf

/-- Witness for C10 at `p = 100` (in range) and `p = 101` (assertion). -/
theorem percentage_frame_layout_witness :
    ((0 : Int) ≤ 100 ∧ (100 : Int) ≤ 100 →
      percentage_call "0d" true none false 100 =
        ([.connectAttempt, .endPositionGuard,
          .writeCommand ("0d" ++ zfill 2 (pyHex (100 : Int).toNat) ++ "00")],
          .sent ("0d" ++ zfill 2 (pyHex (100 : Int).toNat) ++ "00"))
      ∧ (zfill 2 (pyHex (100 : Int).toNat)).length = 2)
    ∧ (percentage_call "0d" true none false 101 =
        ([.connectAttempt, .endPositionGuard], .raised .assertionError)
      ∧ ∀ f, CallEv.writeCommand f ∉
          (percentage_call "0d" true none false 101).1) :=
  ⟨(percentage_frame_layout "0d" none false 100 rfl).1,
    (percentage_frame_layout "0d" none false 101 rfl).2 (by omega)⟩
